import Mathlib

/-!
Shallow embedding of the Windows Cloud Files API bridge
(`src/internal/cloudfiles/cfapi_bridge.c` and `cfapi_bridge.h`).

The C module keeps global mutable state (a fixed 64-slot ring buffer of
callback requests, an initialization flag, dynamically loaded OS function
pointers) and talks to the OS through `CfExecute`, `CfConnectSyncRoot`,
`CfDisconnectSyncRoot` and `CfReportProviderProgress`.  The embedding makes
the state explicit (`QueueState`, `BridgeState`), and every operation
returns, besides its result code, the updated state and the list of OS
calls it performed (`OsCall`).  Outcomes of OS calls (HRESULTs, the key
produced by `CfConnectSyncRoot`, the outcome of `WaitForSingleObject`) are
passed in as explicit parameters, since they are environment inputs.
`FAILED(hr)` for a 32-bit `HRESULT` means the sign bit is set; HRESULTs are
modelled as `Int` with `FAILED hr ↔ hr < 0`.

Wide-character buffers of `CFAPI_BRIDGE_MAX_PATH = 520` slots are modelled
as `List Nat` of length 520; `memset` to zero yields `List.replicate 520 0`
and the `wcsncpy`/explicit-terminator pattern is `copyPath`.
-/

set_option maxRecDepth 8000

namespace CfapiBridge

/-- `#define CFAPI_BRIDGE_MAX_QUEUE_SIZE 64` (cfapi_bridge.h line 11). -/
def CFAPI_BRIDGE_MAX_QUEUE_SIZE : Nat := 64

/-- `#define CFAPI_BRIDGE_MAX_PATH 520` (cfapi_bridge.h line 14). -/
def CFAPI_BRIDGE_MAX_PATH : Nat := 520

/-- `CFAPI_BRIDGE_OK = 0` (cfapi_bridge.h, `CfapiBridgeResult`). -/
def CFAPI_BRIDGE_OK : Int := 0

/-- `CFAPI_BRIDGE_ERROR_NOT_INITIALIZED = -1` (cfapi_bridge.h); shortened
name because of lexical restrictions of this development. -/
def CFAPI_BRIDGE_ERROR_NOT_INIT : Int := -1

/-- `CFAPI_BRIDGE_ERROR_QUEUE_FULL = -2`. -/
def CFAPI_BRIDGE_ERROR_QUEUE_FULL : Int := -2

/-- `CFAPI_BRIDGE_ERROR_QUEUE_EMPTY = -3`. -/
def CFAPI_BRIDGE_ERROR_QUEUE_EMPTY : Int := -3

/-- `CFAPI_BRIDGE_ERROR_TIMEOUT = -4`. -/
def CFAPI_BRIDGE_ERROR_TIMEOUT : Int := -4

/-- `CFAPI_BRIDGE_ERROR_API_FAILED = -5`. -/
def CFAPI_BRIDGE_ERROR_API_FAILED : Int := -5

/-- `CFAPI_BRIDGE_ERROR_INVALID_PARAM = -6`. -/
def CFAPI_BRIDGE_ERROR_INVALID_PARAM : Int := -6

/-- `CFAPI_CALLBACK_FETCH_DATA = 0` (cfapi_bridge.h). -/
def CFAPI_CALLBACK_FETCH_DATA : Int := 0

/-- `CFAPI_CALLBACK_CANCEL_FETCH_DATA = 2`. -/
def CFAPI_CALLBACK_CANCEL_FETCH_DATA : Int := 2

/-- `CFAPI_CALLBACK_NOTIFY_DELETE = 9`. -/
def CFAPI_CALLBACK_NOTIFY_DELETE : Int := 9

/-- `CFAPI_CALLBACK_NOTIFY_RENAME = 11`. -/
def CFAPI_CALLBACK_NOTIFY_RENAME : Int := 11

/-- `CF_OPERATION_TYPE_TRANSFER_DATA = 0` (cfapi_bridge.c enum). -/
def CF_OPERATION_TYPE_TRANSFER_DATA : Int := 0

/-- `CF_OPERATION_TYPE_ACK_DATA = 2`. -/
def CF_OPERATION_TYPE_ACK_DATA : Int := 2

/-- `CF_OPERATION_TYPE_TRANSFER_PLACEHOLDERS = 4`. -/
def CF_OPERATION_TYPE_TRANSFER_PLACEHOLDERS : Int := 4

/-- `#define CF_OPERATION_TRANSFER_DATA_FLAG_MARK_IN_SYNC 0x00000001`
(cfapi_bridge.h line 130). -/
def CF_OPERATION_TRANSFER_DATA_FLAG_MARK_IN_SYNC : Int := 1

/-- `CF_CALLBACK_DELETE_FLAG_IS_DIRECTORY = 0x00000001` (cfapi_bridge.c);
a `DWORD` flag, so modelled as `Nat`. -/
def CF_CALLBACK_DELETE_FLAG_IS_DIRECTORY : Nat := 1

/-- `CF_CALLBACK_RENAME_FLAG_IS_DIRECTORY = 0x00000001` (cfapi_bridge.c);
a `DWORD` flag, so modelled as `Nat`. -/
def CF_CALLBACK_RENAME_FLAG_IS_DIRECTORY : Nat := 1

/-- `S_OK = 0` (HRESULT success). -/
def S_OK : Int := 0

/-- `CfapiBridgeRequest` (cfapi_bridge.h lines 28-40).  The default field
values are the all-zero contents produced by `memset(&req, 0, sizeof(req))`;
the `completionEvent` pointer carries no data in cfapi_bridge.c (it is only
ever zeroed) and is not modelled. -/
structure CfapiBridgeRequest where
  type : Int := 0
  connectionKey : Int := 0
  transferKey : Int := 0
  requestKey : Int := 0
  filePath : List Nat := List.replicate CFAPI_BRIDGE_MAX_PATH 0
  fileSize : Int := 0
  requiredOffset : Int := 0
  requiredLength : Int := 0
  targetPath : List Nat := List.replicate CFAPI_BRIDGE_MAX_PATH 0
  isDirectory : Int := 0
deriving DecidableEq

/-- A `CfExecute` invocation as assembled by cfapi_bridge.c: the
`CF_OPERATION_INFO` fields that the code sets, together with the
`CF_OPERATION_PARAMETERS` union contents.  The whole parameter block is
`memset` to zero before individual fields are written, so every field not
written by a given call site is 0/false; the defaults reflect that.
`hasBuffer` records whether `TransferData.Buffer` was set to a non-null
pointer, `flags` models the flag bits of the active union arm (note the
`CF_OPERATION_TRANSFER_DATA_PARAMS` struct in cfapi_bridge.c has no flags
member, so transfer-data operations always leave those bits zeroed). -/
structure CfOperation where
  opType : Int
  connectionKey : Int
  transferKey : Int
  completionStatus : Int := 0
  hasBuffer : Bool := false
  offset : Int := 0
  length : Int := 0
  flags : Int := 0
  placeholderTotalCount : Int := 0
deriving DecidableEq

/-- The observable calls cfapi_bridge.c makes into the OS. -/
inductive OsCall where
  | execute (op : CfOperation)
  | connectSyncRoot (syncRootPath : List Nat)
  | disconnectSyncRoot (connectionKey : Int)
  | reportProviderProgress (connectionKey transferKey total completed : Int)
  | setEvent
  | waitForRequestEvent (timeoutMs : Nat)
deriving DecidableEq

/-- The ring-buffer globals of cfapi_bridge.c (lines 197-201):
`g_requestQueue`, `g_queueHead`, `g_queueTail`, `g_queueCount`.  The C
array is indexed only at `g_queueHead`/`g_queueTail`, which stay below
`CFAPI_BRIDGE_MAX_QUEUE_SIZE`; the buffer is modelled as a total function
on `Nat` and accessed at the same raw indices as the C code. -/
structure QueueState where
  requestQueue : Nat → CfapiBridgeRequest
  queueHead : Nat
  queueTail : Nat
  queueCount : Nat

/-- The remaining bridge globals: `g_initialized` (named `g_init` here for
lexical reasons) and whether `CfReportProviderProgress` was found by
`GetProcAddress` (`g_pfnCfReportProviderProgress != NULL`). -/
structure BridgeState where
  g_init : Bool
  g_queue : QueueState
  g_hasReportProgressFn : Bool

/-- Queue contents right after `CfapiBridgeInit` (lines 617-620): all
indices reset to zero; the static array is zero-initialized. -/
def initQueueState : QueueState :=
  { requestQueue := fun _ => {}
    queueHead := 0
    queueTail := 0
    queueCount := 0 }

/-- `EnqueueRequest` (cfapi_bridge.c lines 242-260), the critical-section
body: fail with `QUEUE_FULL` when the queue is at capacity, otherwise store
at `g_queueTail`, advance the tail modulo the capacity and bump the count.
The `SetEvent` on the success path is modelled by `enqueueRequestSignal`. -/
def enqueueRequest (q : QueueState) (r : CfapiBridgeRequest) :
    Int × QueueState :=
  if q.queueCount ≥ CFAPI_BRIDGE_MAX_QUEUE_SIZE then
    (CFAPI_BRIDGE_ERROR_QUEUE_FULL, q)
  else
    (CFAPI_BRIDGE_OK,
      { requestQueue := Function.update q.requestQueue q.queueTail r
        queueHead := q.queueHead
        queueTail := (q.queueTail + 1) % CFAPI_BRIDGE_MAX_QUEUE_SIZE
        queueCount := q.queueCount + 1 })

/-- `DequeueRequest` (cfapi_bridge.c lines 263-278): fail with
`QUEUE_EMPTY` when the count is zero, otherwise copy out the slot at
`g_queueHead`, advance the head modulo the capacity and decrement the
count. -/
def dequeueRequest (q : QueueState) :
    Int × Option CfapiBridgeRequest × QueueState :=
  if q.queueCount = 0 then
    (CFAPI_BRIDGE_ERROR_QUEUE_EMPTY, none, q)
  else
    (CFAPI_BRIDGE_OK, some (q.requestQueue q.queueHead),
      { requestQueue := q.requestQueue
        queueHead := (q.queueHead + 1) % CFAPI_BRIDGE_MAX_QUEUE_SIZE
        queueTail := q.queueTail
        queueCount := q.queueCount - 1 })

/-- `EnqueueRequest` at bridge level, including the `SetEvent` performed on
the success path (cfapi_bridge.c line 257). -/
def enqueueRequestSignal (s : BridgeState) (r : CfapiBridgeRequest) :
    Int × BridgeState × List OsCall :=
  let e := enqueueRequest s.g_queue r
  if e.1 = CFAPI_BRIDGE_OK then
    (e.1, { s with g_queue := e.2 }, [OsCall.setEvent])
  else
    (e.1, s, [])

/-- The fields of `CF_CALLBACK_INFO` that cfapi_bridge.c reads in its
callback handlers.  `normalizedPath` is `none` when the OS passes a null
`NormalizedPath` pointer. -/
structure CF_CALLBACK_INFO where
  connectionKey : Int
  transferKey : Int
  fileSize : Int
  normalizedPath : Option (List Nat)
  requestKey : Int := 0
deriving DecidableEq

/-- `CF_CALLBACK_PARAMETERS_FETCHDATA` fields read by `OnFetchDataCallback`. -/
structure CF_CALLBACK_PARAMETERS_FETCHDATA where
  requiredFileOffset : Int
  requiredLength : Int
deriving DecidableEq

/-- `CF_CALLBACK_PARAMETERS_DELETE` fields read by `OnNotifyDeleteCallback`
(`Flags` is a `DWORD`, hence `Nat`). -/
structure CF_CALLBACK_PARAMETERS_DELETE where
  flags : Nat
deriving DecidableEq

/-- `CF_CALLBACK_PARAMETERS_RENAME` fields read by `OnNotifyRenameCallback`;
`targetPath` is `none` when the OS passes a null `TargetPath` pointer. -/
structure CF_CALLBACK_PARAMETERS_RENAME where
  flags : Nat
  targetPath : Option (List Nat)
deriving DecidableEq

/-- The path-copy pattern used by every callback handler (e.g.
cfapi_bridge.c lines 317-319): the destination is a 520-slot buffer already
zeroed by `memset`, then `wcsncpy(dst, src, CFAPI_BRIDGE_MAX_PATH - 1)`
copies at most 519 characters (padding with zeros when the source is
shorter) and `dst[CFAPI_BRIDGE_MAX_PATH - 1] = 0` forces the final slot to
zero.  `src` is the source string's characters up to (not including) its
terminator.  The result is the full 520-slot buffer contents. -/
def copyPath (src : List Nat) : List Nat :=
  src.take (CFAPI_BRIDGE_MAX_PATH - 1) ++
    List.replicate (CFAPI_BRIDGE_MAX_PATH - min src.length (CFAPI_BRIDGE_MAX_PATH - 1)) 0

/-- A 520-slot path buffer left entirely zeroed by `memset` (the case of a
null `NormalizedPath`/`TargetPath`). -/
def zeroPath : List Nat := List.replicate CFAPI_BRIDGE_MAX_PATH 0

/-- `CfapiBridgeAckFetchPlaceholders` (cfapi_bridge.c lines 998-1041):
returns `NOT_INITIALIZED` when the bridge is uninitialized — note this
happens BEFORE any `CfExecute`, so no completion is submitted on that path;
otherwise submits one `TRANSFER_PLACEHOLDERS` operation with `Flags = 0`,
`CompletionStatus = S_OK` and `PlaceholderTotalCount = 0`, returning
`API_FAILED` when the `CfExecute` HRESULT `osHr` is failing. -/
def CfapiBridgeAckFetchPlaceholders (s : BridgeState)
    (connectionKey transferKey : Int) (osHr : Int) :
    Int × BridgeState × List OsCall :=
  if !s.g_init then
    (CFAPI_BRIDGE_ERROR_NOT_INIT, s, [])
  else
    let op : CfOperation :=
      { opType := CF_OPERATION_TYPE_TRANSFER_PLACEHOLDERS
        connectionKey := connectionKey
        transferKey := transferKey
        flags := 0
        completionStatus := S_OK
        placeholderTotalCount := 0 }
    if osHr < 0 then
      (CFAPI_BRIDGE_ERROR_API_FAILED, s, [OsCall.execute op])
    else
      (CFAPI_BRIDGE_OK, s, [OsCall.execute op])

/-- `OnFetchDataCallback` (cfapi_bridge.c lines 296-337): when the bridge
is uninitialized it just returns; otherwise it builds a
`CFAPI_CALLBACK_FETCH_DATA` request (zeroed, then the fields copied from
the callback info and parameters) and hands it to `EnqueueRequest`.  No
`CfExecute` completion of any kind is performed here; the enqueue result is
only logged.  `params` is `none` when `callbackParameters` is null or its
`ParamSize` is too small for the fetch-data arm. -/
def OnFetchDataCallback (s : BridgeState) (info : CF_CALLBACK_INFO)
    (params : Option CF_CALLBACK_PARAMETERS_FETCHDATA) :
    BridgeState × List OsCall :=
  if !s.g_init then
    (s, [])
  else
    let req : CfapiBridgeRequest :=
      { type := CFAPI_CALLBACK_FETCH_DATA
        connectionKey := info.connectionKey
        transferKey := info.transferKey
        fileSize := info.fileSize
        isDirectory := 0
        filePath :=
          match info.normalizedPath with
          | some p => copyPath p
          | none => zeroPath
        requiredOffset :=
          match params with
          | some fp => fp.requiredFileOffset
          | none => 0
        requiredLength :=
          match params with
          | some fp => fp.requiredLength
          | none => 0 }
    let e := enqueueRequestSignal s req
    (e.2.1, e.2.2)

/-- `OnCancelFetchDataCallback` (cfapi_bridge.c lines 340-366): enqueue a
`CFAPI_CALLBACK_CANCEL_FETCH_DATA` request carrying the keys and path. -/
def OnCancelFetchDataCallback (s : BridgeState) (info : CF_CALLBACK_INFO) :
    BridgeState × List OsCall :=
  if !s.g_init then
    (s, [])
  else
    let req : CfapiBridgeRequest :=
      { type := CFAPI_CALLBACK_CANCEL_FETCH_DATA
        connectionKey := info.connectionKey
        transferKey := info.transferKey
        filePath :=
          match info.normalizedPath with
          | some p => copyPath p
          | none => zeroPath }
    let e := enqueueRequestSignal s req
    (e.2.1, e.2.2)

/-- `OnNotifyDeleteCallback` (cfapi_bridge.c lines 369-400): enqueue a
`CFAPI_CALLBACK_NOTIFY_DELETE` request; `isDirectory` comes from the delete
parameters' flags when present. -/
def OnNotifyDeleteCallback (s : BridgeState) (info : CF_CALLBACK_INFO)
    (params : Option CF_CALLBACK_PARAMETERS_DELETE) :
    BridgeState × List OsCall :=
  if !s.g_init then
    (s, [])
  else
    let req : CfapiBridgeRequest :=
      { type := CFAPI_CALLBACK_NOTIFY_DELETE
        connectionKey := info.connectionKey
        transferKey := info.transferKey
        filePath :=
          match info.normalizedPath with
          | some p => copyPath p
          | none => zeroPath
        isDirectory :=
          match params with
          | some dp =>
              if dp.flags &&& CF_CALLBACK_DELETE_FLAG_IS_DIRECTORY ≠ 0 then 1 else 0
          | none => 0 }
    let e := enqueueRequestSignal s req
    (e.2.1, e.2.2)

/-- `OnNotifyRenameCallback` (cfapi_bridge.c lines 481-518): enqueue a
`CFAPI_CALLBACK_NOTIFY_RENAME` request; the target path is copied only when
the rename parameters are present and `TargetPath` is non-null, and
`isDirectory` comes from the rename flags when the parameters are present. -/
def OnNotifyRenameCallback (s : BridgeState) (info : CF_CALLBACK_INFO)
    (params : Option CF_CALLBACK_PARAMETERS_RENAME) :
    BridgeState × List OsCall :=
  if !s.g_init then
    (s, [])
  else
    let req : CfapiBridgeRequest :=
      { type := CFAPI_CALLBACK_NOTIFY_RENAME
        connectionKey := info.connectionKey
        transferKey := info.transferKey
        filePath :=
          match info.normalizedPath with
          | some p => copyPath p
          | none => zeroPath
        targetPath :=
          match params with
          | some rp =>
              match rp.targetPath with
              | some t => copyPath t
              | none => zeroPath
          | none => zeroPath
        isDirectory :=
          match params with
          | some rp =>
              if rp.flags &&& CF_CALLBACK_RENAME_FLAG_IS_DIRECTORY ≠ 0 then 1 else 0
          | none => 0 }
    let e := enqueueRequestSignal s req
    (e.2.1, e.2.2)

/-- `OnFetchPlaceholdersCallback` (cfapi_bridge.c lines 408-429): the
callback logs, then UNCONDITIONALLY calls `CfapiBridgeAckFetchPlaceholders`
(even when uninitialized, per the comment at line 417) and returns; the
result of the acknowledgment is only logged. -/
def OnFetchPlaceholdersCallback (s : BridgeState) (info : CF_CALLBACK_INFO)
    (osHr : Int) : BridgeState × List OsCall :=
  (CfapiBridgeAckFetchPlaceholders s info.connectionKey info.transferKey osHr).2

/-- `CfapiBridgeConnect` (cfapi_bridge.c lines 650-768): check the
`g_initialized` flag, check the two pointer parameters, then always call
`CfConnectSyncRoot` (there is no record of a previous registration, and no
guard against connecting twice); on a failing HRESULT return `API_FAILED`,
otherwise store the new key through the out-pointer and return OK.
`connectionKeyPtr` is whether the out-pointer is non-null; `osHr`/`osKey`
are the HRESULT and key produced by the OS. -/
def CfapiBridgeConnect (s : BridgeState) (syncRootPath : Option (List Nat))
    (connectionKeyPtr : Bool) (osHr : Int) (osKey : Int) :
    Int × Option Int × BridgeState × List OsCall :=
  if !s.g_init then
    (CFAPI_BRIDGE_ERROR_NOT_INIT, none, s, [])
  else
    match syncRootPath with
    | none => (CFAPI_BRIDGE_ERROR_INVALID_PARAM, none, s, [])
    | some p =>
        if !connectionKeyPtr then
          (CFAPI_BRIDGE_ERROR_INVALID_PARAM, none, s, [])
        else if osHr < 0 then
          (CFAPI_BRIDGE_ERROR_API_FAILED, none, s, [OsCall.connectSyncRoot p])
        else
          (CFAPI_BRIDGE_OK, some osKey, s, [OsCall.connectSyncRoot p])

/-- `CfapiBridgeDisconnect` (cfapi_bridge.c lines 770-786). -/
def CfapiBridgeDisconnect (s : BridgeState) (connectionKey : Int)
    (osHr : Int) : Int × BridgeState × List OsCall :=
  if !s.g_init then
    (CFAPI_BRIDGE_ERROR_NOT_INIT, s, [])
  else if osHr < 0 then
    (CFAPI_BRIDGE_ERROR_API_FAILED, s, [OsCall.disconnectSyncRoot connectionKey])
  else
    (CFAPI_BRIDGE_OK, s, [OsCall.disconnectSyncRoot connectionKey])

/-- Outcome of the `WaitForSingleObject` call inside
`CfapiBridgeWaitForRequest` (an environment input). -/
inductive WaitOutcome where
  | signaled
  | timedOut
  | failed
deriving DecidableEq

/-- `CfapiBridgeWaitForRequest` (cfapi_bridge.c lines 788-811): not
initialized → `NOT_INITIALIZED`; queue already non-empty → immediate OK
without waiting; otherwise wait on `g_newRequestEvent` and map the wait
outcome to OK / `TIMEOUT` / `API_FAILED`. -/
def CfapiBridgeWaitForRequest (s : BridgeState) (timeoutMs : Nat)
    (outcome : WaitOutcome) : Int × BridgeState × List OsCall :=
  if !s.g_init then
    (CFAPI_BRIDGE_ERROR_NOT_INIT, s, [])
  else if s.g_queue.queueCount > 0 then
    (CFAPI_BRIDGE_OK, s, [])
  else
    match outcome with
    | .signaled => (CFAPI_BRIDGE_OK, s, [OsCall.waitForRequestEvent timeoutMs])
    | .timedOut => (CFAPI_BRIDGE_ERROR_TIMEOUT, s, [OsCall.waitForRequestEvent timeoutMs])
    | .failed => (CFAPI_BRIDGE_ERROR_API_FAILED, s, [OsCall.waitForRequestEvent timeoutMs])

/-- `CfapiBridgePollRequest` (cfapi_bridge.c lines 813-823): not
initialized → `NOT_INITIALIZED`; null out-pointer → `INVALID_PARAM`;
otherwise `DequeueRequest`. -/
def CfapiBridgePollRequest (s : BridgeState) (requestPtr : Bool) :
    Int × Option CfapiBridgeRequest × BridgeState × List OsCall :=
  if !s.g_init then
    (CFAPI_BRIDGE_ERROR_NOT_INIT, none, s, [])
  else if !requestPtr then
    (CFAPI_BRIDGE_ERROR_INVALID_PARAM, none, s, [])
  else
    let d := dequeueRequest s.g_queue
    (d.1, d.2.1, { s with g_queue := d.2.2 }, [])

/-- `CfapiBridgeTransferData` (cfapi_bridge.c lines 825-869).  NOTE: unlike
its declaration in cfapi_bridge.h (lines 141-149), this definition takes no
`requestKey` and no `flags` argument; the operation parameters are zeroed
by `memset` and only `CompletionStatus = S_OK`, `Buffer`, `Offset` and
`Length` are written, so the submitted TRANSFER_DATA operation always
carries zero flag bits (`CfOperation.flags = 0`: no in-sync mark).
`bufferPresent` is whether `buffer` is non-null. -/
def CfapiBridgeTransferData (s : BridgeState)
    (connectionKey transferKey : Int) (bufferPresent : Bool)
    (bufferLength offset : Int) (osHr : Int) :
    Int × BridgeState × List OsCall :=
  if !s.g_init then
    (CFAPI_BRIDGE_ERROR_NOT_INIT, s, [])
  else if !bufferPresent || bufferLength ≤ 0 then
    (CFAPI_BRIDGE_ERROR_INVALID_PARAM, s, [])
  else
    let op : CfOperation :=
      { opType := CF_OPERATION_TYPE_TRANSFER_DATA
        connectionKey := connectionKey
        transferKey := transferKey
        completionStatus := S_OK
        hasBuffer := true
        offset := offset
        length := bufferLength }
    if osHr < 0 then
      (CFAPI_BRIDGE_ERROR_API_FAILED, s, [OsCall.execute op])
    else
      (CFAPI_BRIDGE_OK, s, [OsCall.execute op])

/-- `CfapiBridgeTransferComplete` (cfapi_bridge.c lines 871-903): submits
one `ACK_DATA` operation with `CompletionStatus = S_OK`. -/
def CfapiBridgeTransferComplete (s : BridgeState)
    (connectionKey transferKey : Int) (osHr : Int) :
    Int × BridgeState × List OsCall :=
  if !s.g_init then
    (CFAPI_BRIDGE_ERROR_NOT_INIT, s, [])
  else
    let op : CfOperation :=
      { opType := CF_OPERATION_TYPE_ACK_DATA
        connectionKey := connectionKey
        transferKey := transferKey
        completionStatus := S_OK }
    if osHr < 0 then
      (CFAPI_BRIDGE_ERROR_API_FAILED, s, [OsCall.execute op])
    else
      (CFAPI_BRIDGE_OK, s, [OsCall.execute op])

/-- `CfapiBridgeTransferError` (cfapi_bridge.c lines 905-941): submits one
`TRANSFER_DATA` operation with `CompletionStatus = hresult`, a null buffer
and zero offset/length. -/
def CfapiBridgeTransferError (s : BridgeState)
    (connectionKey transferKey : Int) (hresult : Int) (osHr : Int) :
    Int × BridgeState × List OsCall :=
  if !s.g_init then
    (CFAPI_BRIDGE_ERROR_NOT_INIT, s, [])
  else
    let op : CfOperation :=
      { opType := CF_OPERATION_TYPE_TRANSFER_DATA
        connectionKey := connectionKey
        transferKey := transferKey
        completionStatus := hresult
        hasBuffer := false
        offset := 0
        length := 0 }
    if osHr < 0 then
      (CFAPI_BRIDGE_ERROR_API_FAILED, s, [OsCall.execute op])
    else
      (CFAPI_BRIDGE_OK, s, [OsCall.execute op])

/-- `CfapiBridgeReportProgress` (cfapi_bridge.c lines 943-975): not
initialized → `NOT_INITIALIZED`; `CfReportProviderProgress` unavailable
(older Windows) → silently succeed without any OS call; otherwise call it
and return OK whether or not the HRESULT is failing (the failure branch
at lines 969-972 also returns `CFAPI_BRIDGE_OK`). -/
def CfapiBridgeReportProgress (s : BridgeState)
    (connectionKey transferKey total completed : Int) (osHr : Int) :
    Int × BridgeState × List OsCall :=
  if !s.g_init then
    (CFAPI_BRIDGE_ERROR_NOT_INIT, s, [])
  else if !s.g_hasReportProgressFn then
    (CFAPI_BRIDGE_OK, s, [])
  else
    let calls := [OsCall.reportProviderProgress connectionKey transferKey total completed]
    if osHr < 0 then
      (CFAPI_BRIDGE_OK, s, calls)
    else
      (CFAPI_BRIDGE_OK, s, calls)

/-- `CfapiBridgeGetQueueCount` (cfapi_bridge.c lines 981-989): returns 0
when the bridge is not initialized (NOT the `NOT_INITIALIZED` error code),
otherwise the current queue count.  It never mutates any state. -/
def CfapiBridgeGetQueueCount (s : BridgeState) : Int :=
  if !s.g_init then 0 else Int.ofNat s.g_queue.queueCount

/-- One queue operation, for reasoning about arbitrary sequences of
`EnqueueRequest`/`DequeueRequest` calls. -/
inductive QueueOp where
  | enq (r : CfapiBridgeRequest)
  | deq
deriving DecidableEq

/-- One step of the C ring buffer: the result code, the request returned by
a dequeue (if any), and the next queue state. -/
def queueStep (q : QueueState) : QueueOp → (Int × Option CfapiBridgeRequest) × QueueState
  | .enq r =>
      let e := enqueueRequest q r
      ((e.1, none), e.2)
  | .deq =>
      let d := dequeueRequest q
      ((d.1, d.2.1), d.2.2)

/-- Run a sequence of operations on the C ring buffer, collecting the
per-operation observations. -/
def runQueue (q : QueueState) : List QueueOp → QueueState × List (Int × Option CfapiBridgeRequest)
  | [] => (q, [])
  | op :: ops =>
      let st := queueStep q op
      let rest := runQueue st.2 ops
      (rest.1, st.1 :: rest.2)

/-- Specification-side enqueue, following the spec's words (spec.md §4.2,
§8): a FIFO list of at most 64 events; enqueue on a full queue returns
`QueueFull` and leaves the queue unchanged, otherwise appends at the back. -/
def specEnqueue (l : List CfapiBridgeRequest) (r : CfapiBridgeRequest) :
    Int × List CfapiBridgeRequest :=
  if l.length ≥ CFAPI_BRIDGE_MAX_QUEUE_SIZE then
    (CFAPI_BRIDGE_ERROR_QUEUE_FULL, l)
  else
    (CFAPI_BRIDGE_OK, l ++ [r])

/-- Specification-side dequeue, following the spec's words: pop the front
of the FIFO list, `QueueEmpty` when there is nothing. -/
def specDequeue (l : List CfapiBridgeRequest) :
    (Int × Option CfapiBridgeRequest) × List CfapiBridgeRequest :=
  match l with
  | [] => ((CFAPI_BRIDGE_ERROR_QUEUE_EMPTY, none), [])
  | x :: xs => ((CFAPI_BRIDGE_OK, some x), xs)

/-- One step of the specification-side FIFO queue. -/
def specStep (l : List CfapiBridgeRequest) :
    QueueOp → (Int × Option CfapiBridgeRequest) × List CfapiBridgeRequest
  | .enq r =>
      let e := specEnqueue l r
      ((e.1, none), e.2)
  | .deq => specDequeue l

/-- Run a sequence of operations on the specification-side FIFO queue. -/
def specRun (l : List CfapiBridgeRequest) :
    List QueueOp → List CfapiBridgeRequest × List (Int × Option CfapiBridgeRequest)
  | [] => (l, [])
  | op :: ops =>
      let st := specStep l op
      let rest := specRun st.2 ops
      (rest.1, st.1 :: rest.2)

/-- The abstraction of the C ring buffer: the `queueCount` stored events,
oldest first, read from `queueHead` onwards modulo the capacity. -/
def queueAbs (q : QueueState) : List CfapiBridgeRequest :=
  (List.range q.queueCount).map
    (fun i => q.requestQueue ((q.queueHead + i) % CFAPI_BRIDGE_MAX_QUEUE_SIZE))

/-- The ring-buffer invariant maintained by `EnqueueRequest` and
`DequeueRequest`: the count never exceeds the capacity (it is a `Nat`, so
`0 ≤ count` holds by type), both indices stay below the capacity, and the
tail is the head advanced by the count modulo the capacity. -/
def QueueInv (q : QueueState) : Prop :=
  q.queueCount ≤ CFAPI_BRIDGE_MAX_QUEUE_SIZE ∧
  q.queueHead < CFAPI_BRIDGE_MAX_QUEUE_SIZE ∧
  q.queueTail < CFAPI_BRIDGE_MAX_QUEUE_SIZE ∧
  q.queueTail = (q.queueHead + q.queueCount) % CFAPI_BRIDGE_MAX_QUEUE_SIZE

instance (q : QueueState) : Decidable (QueueInv q) := by
  unfold QueueInv; infer_instance

/-- A concrete uninitialized bridge state (the state before
`CfapiBridgeInit`, or after `CfapiBridgeCleanup`). -/
def uninitBridgeState : BridgeState :=
  { g_init := false, g_queue := initQueueState, g_hasReportProgressFn := true }

/-- A concrete initialized bridge state with an empty queue (the state
right after a successful `CfapiBridgeInit` on a Windows version that has
`CfReportProviderProgress`). -/
def initBridgeState : BridgeState :=
  { g_init := true, g_queue := initQueueState, g_hasReportProgressFn := true }

/-- A concrete initialized bridge state on an older Windows version where
`GetProcAddress` did not find `CfReportProviderProgress`. -/
def initBridgeStateNoProgressFn : BridgeState :=
  { g_init := true, g_queue := initQueueState, g_hasReportProgressFn := false }

/-- A concrete queue state whose count has reached the capacity (all slots
hold the zeroed request; head = tail = 0, count = 64, which satisfies
`QueueInv`). -/
def fullQueueState : QueueState :=
  { requestQueue := fun _ => {}
    queueHead := 0
    queueTail := 0
    queueCount := CFAPI_BRIDGE_MAX_QUEUE_SIZE }

/-- An initialized bridge whose request queue is full. -/
def fullBridgeState : BridgeState :=
  { g_init := true, g_queue := fullQueueState, g_hasReportProgressFn := true }

/-- A concrete queue state holding one event (head = 0, tail = 1, count = 1). -/
def oneQueueState : QueueState :=
  { requestQueue := fun _ => {}
    queueHead := 0
    queueTail := 1
    queueCount := 1 }

/-- Concrete callback info used in concrete evaluations: connection key 1,
transfer key 2, a 4-byte file at path `\f` (wide characters 92, 102). -/
def sampleInfo : CF_CALLBACK_INFO :=
  { connectionKey := 1
    transferKey := 2
    fileSize := 4
    normalizedPath := some [92, 102]
    requestKey := 3 }

/-- Concrete fetch-data parameters: the OS requires bytes [0, 4). -/
def sampleFetchParams : CF_CALLBACK_PARAMETERS_FETCHDATA :=
  { requiredFileOffset := 0, requiredLength := 4 }

/-- A concrete request used in queue evaluations. -/
def sampleRequest : CfapiBridgeRequest :=
  { type := CFAPI_CALLBACK_NOTIFY_DELETE, connectionKey := 5, filePath := [], targetPath := [] }

/-- A second concrete request, distinguishable from `sampleRequest`. -/
def sampleRequest2 : CfapiBridgeRequest :=
  { type := CFAPI_CALLBACK_NOTIFY_RENAME, connectionKey := 6, filePath := [], targetPath := [] }

/-- A concrete sync-root path, the wide characters of `C:\r`. -/
def samplePath : List Nat := [67, 58, 92, 114]

/-- A concrete operation sequence: two enqueues followed by three dequeues
(the last one hitting the empty queue). -/
def sampleOps : List QueueOp :=
  [QueueOp.enq sampleRequest, QueueOp.enq sampleRequest2,
   QueueOp.deq, QueueOp.deq, QueueOp.deq]

/-- A 600-character source path all of whose characters are `A` (65):
longer than the 520-slot destination buffer, exercising truncation. -/
def longSrcPath : List Nat := List.replicate 600 65

lemma length_queueAbs (q : QueueState) : (queueAbs q).length = q.queueCount := by
  simp [queueAbs]

lemma map_range_congr {α : Type} (f g : Nat → α) (n : Nat)
    (h : ∀ i, i < n → f i = g i) :
    (List.range n).map f = (List.range n).map g :=
  List.map_congr_left (fun a ha => h a (List.mem_range.mp ha))

lemma enqueue_sim (q : QueueState) (r : CfapiBridgeRequest) (hInv : QueueInv q) :
    QueueInv (enqueueRequest q r).2 ∧
    (enqueueRequest q r).1 = (specEnqueue (queueAbs q) r).1 ∧
    queueAbs (enqueueRequest q r).2 = (specEnqueue (queueAbs q) r).2 := by
  obtain ⟨hc, hh, ht, hht⟩ := hInv
  by_cases hfull : q.queueCount ≥ CFAPI_BRIDGE_MAX_QUEUE_SIZE
  · have hlen : (queueAbs q).length ≥ CFAPI_BRIDGE_MAX_QUEUE_SIZE := by
      rw [length_queueAbs]; exact hfull
    have e1 : enqueueRequest q r = (CFAPI_BRIDGE_ERROR_QUEUE_FULL, q) := by
      unfold enqueueRequest; rw [if_pos hfull]
    have e2 : specEnqueue (queueAbs q) r = (CFAPI_BRIDGE_ERROR_QUEUE_FULL, queueAbs q) := by
      unfold specEnqueue; rw [if_pos hlen]
    rw [e1, e2]
    exact ⟨⟨hc, hh, ht, hht⟩, rfl, rfl⟩
  · have hlt : q.queueCount < CFAPI_BRIDGE_MAX_QUEUE_SIZE := by omega
    have hlen : ¬ (queueAbs q).length ≥ CFAPI_BRIDGE_MAX_QUEUE_SIZE := by
      rw [length_queueAbs]; omega
    have e1 : enqueueRequest q r = (CFAPI_BRIDGE_OK,
        { requestQueue := Function.update q.requestQueue q.queueTail r
          queueHead := q.queueHead
          queueTail := (q.queueTail + 1) % CFAPI_BRIDGE_MAX_QUEUE_SIZE
          queueCount := q.queueCount + 1 }) := by
      unfold enqueueRequest; rw [if_neg hfull]
    have e2 : specEnqueue (queueAbs q) r = (CFAPI_BRIDGE_OK, queueAbs q ++ [r]) := by
      unfold specEnqueue; rw [if_neg hlen]
    rw [e1, e2]
    have hcap : (0:Nat) < CFAPI_BRIDGE_MAX_QUEUE_SIZE := by decide
    refine ⟨⟨?_, ?_, ?_, ?_⟩, rfl, ?_⟩
    · show q.queueCount + 1 ≤ CFAPI_BRIDGE_MAX_QUEUE_SIZE; omega
    · exact hh
    · exact Nat.mod_lt _ hcap
    · show (q.queueTail + 1) % CFAPI_BRIDGE_MAX_QUEUE_SIZE =
        (q.queueHead + (q.queueCount + 1)) % CFAPI_BRIDGE_MAX_QUEUE_SIZE
      unfold CFAPI_BRIDGE_MAX_QUEUE_SIZE at hht ⊢
      omega
    · unfold queueAbs
      dsimp only
      rw [List.range_succ, List.map_append, List.map_cons, List.map_nil]
      congr 1
      · apply map_range_congr
        intro i hi
        apply Function.update_noteq
        unfold CFAPI_BRIDGE_MAX_QUEUE_SIZE at hh hlt hht ⊢
        omega
      · have e3 : (q.queueHead + q.queueCount) % CFAPI_BRIDGE_MAX_QUEUE_SIZE =
            q.queueTail := hht.symm
        rw [e3, Function.update_same]

lemma dequeue_sim (q : QueueState) (hInv : QueueInv q) :
    QueueInv (dequeueRequest q).2.2 ∧
    ((dequeueRequest q).1, (dequeueRequest q).2.1) = (specDequeue (queueAbs q)).1 ∧
    queueAbs (dequeueRequest q).2.2 = (specDequeue (queueAbs q)).2 := by
  obtain ⟨hc, hh, ht, hht⟩ := hInv
  by_cases hzero : q.queueCount = 0
  · have habs : queueAbs q = [] := by
      unfold queueAbs; rw [hzero]; rfl
    have e1 : dequeueRequest q = (CFAPI_BRIDGE_ERROR_QUEUE_EMPTY, none, q) := by
      unfold dequeueRequest; rw [if_pos hzero]
    rw [e1, habs]
    exact ⟨⟨hc, hh, ht, hht⟩, rfl, rfl⟩
  · obtain ⟨k, hk⟩ : ∃ k, q.queueCount = k + 1 :=
      ⟨q.queueCount - 1, by omega⟩
    have hcap : (0:Nat) < CFAPI_BRIDGE_MAX_QUEUE_SIZE := by decide
    have habs : queueAbs q =
        q.requestQueue q.queueHead ::
          (List.range k).map (fun i =>
            q.requestQueue ((q.queueHead + (i + 1)) % CFAPI_BRIDGE_MAX_QUEUE_SIZE)) := by
      unfold queueAbs
      rw [hk, List.range_succ_eq_map, List.map_cons, List.map_map]
      congr 1
      rw [Nat.add_zero, Nat.mod_eq_of_lt hh]
    have e1 : dequeueRequest q = (CFAPI_BRIDGE_OK, some (q.requestQueue q.queueHead),
        { requestQueue := q.requestQueue
          queueHead := (q.queueHead + 1) % CFAPI_BRIDGE_MAX_QUEUE_SIZE
          queueTail := q.queueTail
          queueCount := q.queueCount - 1 }) := by
      unfold dequeueRequest; rw [if_neg hzero]
    rw [e1, habs]
    refine ⟨⟨?_, ?_, ?_, ?_⟩, rfl, ?_⟩
    · show q.queueCount - 1 ≤ CFAPI_BRIDGE_MAX_QUEUE_SIZE; omega
    · exact Nat.mod_lt _ hcap
    · exact ht
    · show q.queueTail = ((q.queueHead + 1) % CFAPI_BRIDGE_MAX_QUEUE_SIZE +
        (q.queueCount - 1)) % CFAPI_BRIDGE_MAX_QUEUE_SIZE
      unfold CFAPI_BRIDGE_MAX_QUEUE_SIZE at hht ⊢
      omega
    · show queueAbs _ = _
      unfold queueAbs
      dsimp only
      have hk' : q.queueCount - 1 = k := by omega
      rw [hk']
      apply map_range_congr
      intro i _
      apply congrArg
      unfold CFAPI_BRIDGE_MAX_QUEUE_SIZE
      omega

lemma step_sim (q : QueueState) (op : QueueOp) (hInv : QueueInv q) :
    QueueInv (queueStep q op).2 ∧
    (queueStep q op).1 = (specStep (queueAbs q) op).1 ∧
    queueAbs (queueStep q op).2 = (specStep (queueAbs q) op).2 := by
  cases op with
  | enq r =>
      obtain ⟨h1, h2, h3⟩ := enqueue_sim q r hInv
      exact ⟨h1, by simp only [queueStep, specStep, h2], by simpa [queueStep, specStep] using h3⟩
  | deq =>
      obtain ⟨h1, h2, h3⟩ := dequeue_sim q hInv
      exact ⟨h1, by simpa [queueStep, specStep] using h2, by simpa [queueStep, specStep] using h3⟩

lemma runQueue_sim (ops : List QueueOp) :
    ∀ (q : QueueState), QueueInv q →
      QueueInv (runQueue q ops).1 ∧
      queueAbs (runQueue q ops).1 = (specRun (queueAbs q) ops).1 ∧
      (runQueue q ops).2 = (specRun (queueAbs q) ops).2 := by
  induction ops with
  | nil => intro q hInv; exact ⟨hInv, rfl, rfl⟩
  | cons op ops ih =>
      intro q hInv
      obtain ⟨hInv', hout, habs⟩ := step_sim q op hInv
      obtain ⟨ih1, ih2, ih3⟩ := ih (queueStep q op).2 hInv'
      refine ⟨ih1, ?_, ?_⟩
      · show queueAbs (runQueue q (op :: ops)).1 = (specRun (queueAbs q) (op :: ops)).1
        simp only [runQueue, specRun]
        rw [ih2, habs]
      · simp only [runQueue, specRun]
        rw [ih3, hout, habs]

lemma initQueue_inv : QueueInv initQueueState := by decide

lemma initQueue_abs : queueAbs initQueueState = [] := rfl

lemma enqueueRequestSignal_full (s : BridgeState) (r : CfapiBridgeRequest)
    (h : s.g_queue.queueCount = CFAPI_BRIDGE_MAX_QUEUE_SIZE) :
    enqueueRequestSignal s r = (CFAPI_BRIDGE_ERROR_QUEUE_FULL, s, []) := by
  unfold enqueueRequestSignal enqueueRequest
  rw [if_pos (by omega : s.g_queue.queueCount ≥ CFAPI_BRIDGE_MAX_QUEUE_SIZE)]
  rfl

/-- C3: for every queue state whose count has reached the capacity (64),
`EnqueueRequest` returns `QueueFull` and leaves the queue completely
unchanged (the returned state is the input state itself: no stored event
overwritten, head/tail/count unmodified); moreover `OnFetchDataCallback`,
the producer of fetch-data events, makes a single enqueue attempt and, on
a full queue, returns with the bridge state unchanged and no OS calls —
the dropped event is never retried. -/
theorem enqueue_full_returns_queueFull_unchanged
    (q : QueueState) (r : CfapiBridgeRequest) (s : BridgeState)
    (info : CF_CALLBACK_INFO) (params : Option CF_CALLBACK_PARAMETERS_FETCHDATA)
    (hq : q.queueCount = CFAPI_BRIDGE_MAX_QUEUE_SIZE)
    (hs : s.g_queue.queueCount = CFAPI_BRIDGE_MAX_QUEUE_SIZE) :
    enqueueRequest q r = (CFAPI_BRIDGE_ERROR_QUEUE_FULL, q) ∧
    OnFetchDataCallback s info params = (s, []) := by
  constructor
  · unfold enqueueRequest
    rw [if_pos (by omega : q.queueCount ≥ CFAPI_BRIDGE_MAX_QUEUE_SIZE)]
  · by_cases hinit : s.g_init
    · unfold OnFetchDataCallback
      rw [if_neg (by simp [hinit])]
      dsimp only
      rw [enqueueRequestSignal_full s _ hs]
    · unfold OnFetchDataCallback
      rw [if_pos (by simp [hinit])]

/-- Witness for C3: concrete evaluation on a full queue. -/
theorem enqueue_full_returns_queueFull_unchanged_witness :
    enqueueRequest fullQueueState sampleRequest =
      (CFAPI_BRIDGE_ERROR_QUEUE_FULL, fullQueueState) ∧
    OnFetchDataCallback fullBridgeState sampleInfo (some sampleFetchParams) =
      (fullBridgeState, []) :=
  enqueue_full_returns_queueFull_unchanged fullQueueState sampleRequest
    fullBridgeState sampleInfo (some sampleFetchParams) rfl rfl

/-- C4: for all sequences of `EnqueueRequest`/`DequeueRequest` operations
starting from the initialized empty queue, the ring-buffer invariant holds
(`count ≤ 64` — and `0 ≤ count` by the `Nat` type — with both indices below
the capacity and `tail = (head + count) % 64`), the reached state refines
the specification FIFO list queue, and the observed result codes and
dequeued events coincide with those of the specification queue — so
`DequeueRequest` returns the successfully enqueued events in FIFO order.
In addition, each successful enqueue advances the tail modulo the capacity
(head untouched, count incremented) and each successful dequeue advances
the head modulo the capacity (tail untouched, count decremented). -/
theorem queue_fifo_refinement (ops : List QueueOp) (q : QueueState)
    (r : CfapiBridgeRequest) :
    (QueueInv (runQueue initQueueState ops).1 ∧
      queueAbs (runQueue initQueueState ops).1 = (specRun [] ops).1 ∧
      (runQueue initQueueState ops).2 = (specRun [] ops).2) ∧
    (q.queueCount < CFAPI_BRIDGE_MAX_QUEUE_SIZE →
      (enqueueRequest q r).1 = CFAPI_BRIDGE_OK ∧
      (enqueueRequest q r).2.queueTail = (q.queueTail + 1) % CFAPI_BRIDGE_MAX_QUEUE_SIZE ∧
      (enqueueRequest q r).2.queueHead = q.queueHead ∧
      (enqueueRequest q r).2.queueCount = q.queueCount + 1) ∧
    (0 < q.queueCount →
      (dequeueRequest q).1 = CFAPI_BRIDGE_OK ∧
      (dequeueRequest q).2.2.queueHead = (q.queueHead + 1) % CFAPI_BRIDGE_MAX_QUEUE_SIZE ∧
      (dequeueRequest q).2.2.queueTail = q.queueTail ∧
      (dequeueRequest q).2.2.queueCount = q.queueCount - 1) := by
  refine ⟨?_, ?_, ?_⟩
  · have h := runQueue_sim ops initQueueState initQueue_inv
    rwa [initQueue_abs] at h
  · intro hlt
    unfold enqueueRequest
    rw [if_neg (by omega)]
    exact ⟨rfl, rfl, rfl, rfl⟩
  · intro hpos
    unfold dequeueRequest
    rw [if_neg (by omega)]
    exact ⟨rfl, rfl, rfl, rfl⟩

/-- Witness for C4: concrete evaluation of a five-operation sequence and of
single enqueue/dequeue steps on a one-element queue. -/
theorem queue_fifo_refinement_witness :
    (QueueInv (runQueue initQueueState sampleOps).1 ∧
      (runQueue initQueueState sampleOps).2 = (specRun [] sampleOps).2) ∧
    (enqueueRequest oneQueueState sampleRequest).2.queueTail = 2 ∧
    (dequeueRequest oneQueueState).2.2.queueHead = 1 := by
  refine ⟨⟨(queue_fifo_refinement sampleOps oneQueueState sampleRequest).1.1,
      (queue_fifo_refinement sampleOps oneQueueState sampleRequest).1.2.2⟩, ?_, ?_⟩
  · exact ((queue_fifo_refinement sampleOps oneQueueState sampleRequest).2.1
      (by decide)).2.1
  · exact ((queue_fifo_refinement sampleOps oneQueueState sampleRequest).2.2
      (by decide)).2.1

/-- C1: contrary to the claim, `OnFetchDataCallback` does not run any
hydration loop and submits no completion to the OS before returning: on
every input its OS-call trace contains no `CfExecute` operation at all (it
is either empty or just the `SetEvent` of a successful enqueue) — the
callback merely enqueues a `FETCH_DATA` request for later asynchronous
processing.  Concretely, on an initialized bridge with an empty queue the
callback returns having placed one request in the queue and performed no
completion call. -/
theorem fetchData_callback_enqueues_no_completion :
    (∀ (s : BridgeState) (info : CF_CALLBACK_INFO)
        (params : Option CF_CALLBACK_PARAMETERS_FETCHDATA),
      (OnFetchDataCallback s info params).2 = [] ∨
      (OnFetchDataCallback s info params).2 = [OsCall.setEvent]) ∧
    (OnFetchDataCallback initBridgeState sampleInfo (some sampleFetchParams)).2 =
      [OsCall.setEvent] ∧
    (OnFetchDataCallback initBridgeState sampleInfo
      (some sampleFetchParams)).1.g_queue.queueCount = 1 := by
  refine ⟨?_, rfl, rfl⟩
  intro s info params
  unfold OnFetchDataCallback enqueueRequestSignal
  by_cases hinit : s.g_init
  · rw [if_neg (by simp [hinit])]
    dsimp only
    by_cases hok : (enqueueRequest s.g_queue
        { type := CFAPI_CALLBACK_FETCH_DATA
          connectionKey := info.connectionKey
          transferKey := info.transferKey
          fileSize := info.fileSize
          isDirectory := 0
          filePath := match info.normalizedPath with
            | some p => copyPath p
            | none => zeroPath
          requiredOffset := match params with
            | some fp => fp.requiredFileOffset
            | none => 0
          requiredLength := match params with
            | some fp => fp.requiredLength
            | none => 0 }).1 = CFAPI_BRIDGE_OK
    · rw [if_pos hok]
      exact Or.inr rfl
    · rw [if_neg hok]
      exact Or.inl rfl
  · rw [if_pos (by simp [hinit])]
    exact Or.inl rfl

/-- C2: when the bridge is uninitialized, `OnFetchPlaceholdersCallback`
submits NO acknowledgment completion at all — `CfapiBridgeAckFetchPlaceholders`
reports `NOT_INITIALIZED` before reaching its `CfExecute` — contradicting
the claim (and the code's own comments at lines 407 and 417); once
initialized, the callback does submit exactly one transfer-placeholders
completion with `PlaceholderTotalCount = 0` and no flags. -/
theorem fetchPlaceholders_uninit_submits_no_ack :
    OnFetchPlaceholdersCallback uninitBridgeState sampleInfo 0 =
      (uninitBridgeState, []) ∧
    (CfapiBridgeAckFetchPlaceholders uninitBridgeState 1 2 0).1 =
      CFAPI_BRIDGE_ERROR_NOT_INIT ∧
    (OnFetchPlaceholdersCallback initBridgeState sampleInfo 0).2 =
      [OsCall.execute
        { opType := CF_OPERATION_TYPE_TRANSFER_PLACEHOLDERS
          connectionKey := 1
          transferKey := 2
          completionStatus := S_OK
          flags := 0
          placeholderTotalCount := 0 }] :=
  ⟨rfl, rfl, rfl⟩

/-- C5 counterexample: `CfapiBridgeGetQueueCount` invoked while the bridge
is not initialized returns 0, not the `NOT_INITIALIZED` error code the
claim requires for every listed operation. -/
theorem getQueueCount_uninit_returns_zero :
    CfapiBridgeGetQueueCount uninitBridgeState = 0 ∧
    CfapiBridgeGetQueueCount uninitBridgeState ≠ CFAPI_BRIDGE_ERROR_NOT_INIT :=
  ⟨rfl, by decide⟩

/-- C5 (amended): invoking `Connect`, `Disconnect`, `WaitForRequest`,
`PollRequest`, `TransferData`, `TransferComplete`, `TransferError`,
`ReportProgress` or `AckFetchPlaceholders` while the bridge is not
initialized returns `NOT_INITIALIZED`, leaves the bridge state unchanged
and performs no OS call; `GetQueueCount`, however, returns 0 (it is a pure
reader of the state, so it too has no side effects). -/
theorem uninit_ops_no_side_effects (s : BridgeState) (hs : s.g_init = false)
    (syncRootPath : Option (List Nat)) (keyPtr reqPtr bufPresent : Bool)
    (osHr osKey ck tk total completed hresult len off : Int)
    (timeoutMs : Nat) (outcome : WaitOutcome) :
    CfapiBridgeConnect s syncRootPath keyPtr osHr osKey =
      (CFAPI_BRIDGE_ERROR_NOT_INIT, none, s, []) ∧
    CfapiBridgeDisconnect s ck osHr = (CFAPI_BRIDGE_ERROR_NOT_INIT, s, []) ∧
    CfapiBridgeWaitForRequest s timeoutMs outcome =
      (CFAPI_BRIDGE_ERROR_NOT_INIT, s, []) ∧
    CfapiBridgePollRequest s reqPtr = (CFAPI_BRIDGE_ERROR_NOT_INIT, none, s, []) ∧
    CfapiBridgeTransferData s ck tk bufPresent len off osHr =
      (CFAPI_BRIDGE_ERROR_NOT_INIT, s, []) ∧
    CfapiBridgeTransferComplete s ck tk osHr = (CFAPI_BRIDGE_ERROR_NOT_INIT, s, []) ∧
    CfapiBridgeTransferError s ck tk hresult osHr =
      (CFAPI_BRIDGE_ERROR_NOT_INIT, s, []) ∧
    CfapiBridgeReportProgress s ck tk total completed osHr =
      (CFAPI_BRIDGE_ERROR_NOT_INIT, s, []) ∧
    CfapiBridgeAckFetchPlaceholders s ck tk osHr =
      (CFAPI_BRIDGE_ERROR_NOT_INIT, s, []) ∧
    CfapiBridgeGetQueueCount s = 0 := by
  have hb : (!s.g_init) = true := by simp [hs]
  refine ⟨?_, ?_, ?_, ?_, ?_, ?_, ?_, ?_, ?_, ?_⟩
  · unfold CfapiBridgeConnect; rw [if_pos hb]
  · unfold CfapiBridgeDisconnect; rw [if_pos hb]
  · unfold CfapiBridgeWaitForRequest; rw [if_pos hb]
  · unfold CfapiBridgePollRequest; rw [if_pos hb]
  · unfold CfapiBridgeTransferData; rw [if_pos hb]
  · unfold CfapiBridgeTransferComplete; rw [if_pos hb]
  · unfold CfapiBridgeTransferError; rw [if_pos hb]
  · unfold CfapiBridgeReportProgress; rw [if_pos hb]
  · unfold CfapiBridgeAckFetchPlaceholders; rw [if_pos hb]
  · unfold CfapiBridgeGetQueueCount; rw [if_pos hb]

/-- Witness for the amended C5: concrete evaluation on the uninitialized
bridge state. -/
theorem uninit_ops_no_side_effects_witness :
    CfapiBridgeConnect uninitBridgeState (some samplePath) true 0 7 =
      (CFAPI_BRIDGE_ERROR_NOT_INIT, none, uninitBridgeState, []) ∧
    CfapiBridgeGetQueueCount uninitBridgeState = 0 :=
  ⟨(uninit_ops_no_side_effects uninitBridgeState rfl (some samplePath)
      true true true 0 7 1 2 100 50 3 4 0 1000 WaitOutcome.signaled).1,
   (uninit_ops_no_side_effects uninitBridgeState rfl (some samplePath)
      true true true 0 7 1 2 100 50 3 4 0 1000
      WaitOutcome.signaled).2.2.2.2.2.2.2.2.2⟩

/-- C6: contrary to the claim (and to the contract documented for
`CfapiBridgeTransferData` in cfapi_bridge.h lines 129-149), the
implementation in cfapi_bridge.c takes no flags argument and the
`CF_OPERATION_TRANSFER_DATA_PARAMS` struct it fills has no flags member
(the whole parameter block stays zeroed except status/buffer/offset/length),
so no transfer-data completion ever carries the `MARK_IN_SYNC` flag: every
`CfExecute` operation `CfapiBridgeTransferData` submits has `flags = 0`, and
in particular the last chunk of a request — here a 4-byte chunk at offset 0
completing a request with `requiredOffset = 0`, `requiredLength = 4` — is
submitted WITHOUT the final/in-sync mark (`0 ≠ MARK_IN_SYNC`). -/
theorem transferData_never_marks_in_sync :
    (∀ (s : BridgeState) (ck tk : Int) (bp : Bool) (len off osHr : Int),
      (CfapiBridgeTransferData s ck tk bp len off osHr).2.2 = [] ∨
      (CfapiBridgeTransferData s ck tk bp len off osHr).2.2 =
        [OsCall.execute
          { opType := CF_OPERATION_TYPE_TRANSFER_DATA
            connectionKey := ck
            transferKey := tk
            completionStatus := S_OK
            hasBuffer := true
            offset := off
            length := len
            flags := 0
            placeholderTotalCount := 0 }]) ∧
    (CfapiBridgeTransferData initBridgeState 1 2 true 4 0 0).2.2 =
      [OsCall.execute
        { opType := CF_OPERATION_TYPE_TRANSFER_DATA
          connectionKey := 1
          transferKey := 2
          completionStatus := S_OK
          hasBuffer := true
          offset := 0
          length := 4
          flags := 0
          placeholderTotalCount := 0 }] ∧
    (0 : Int) ≠ CF_OPERATION_TRANSFER_DATA_FLAG_MARK_IN_SYNC := by
  refine ⟨?_, rfl, by decide⟩
  intro s ck tk bp len off osHr
  unfold CfapiBridgeTransferData
  split
  · exact Or.inl rfl
  · split
    · exact Or.inl rfl
    · dsimp only
      split
      · exact Or.inr rfl
      · exact Or.inr rfl

/-- C7: `CfapiBridgeReportProgress` is best-effort — on an initialized
bridge it returns `CFAPI_BRIDGE_OK` for every input: when the OS progress
function was not found (older Windows) it succeeds silently without any OS
call, and when the `CfReportProviderProgress` call returns a failing
HRESULT the failure is swallowed and `OK` is still returned.  A
progress-report failure is never propagated. -/
theorem reportProgress_best_effort (s : BridgeState)
    (ck tk total completed osHr : Int) (hs : s.g_init = true) :
    (CfapiBridgeReportProgress s ck tk total completed osHr).1 =
      CFAPI_BRIDGE_OK ∧
    (CfapiBridgeReportProgress s ck tk total completed osHr).2.1 = s ∧
    (s.g_hasReportProgressFn = false →
      CfapiBridgeReportProgress s ck tk total completed osHr =
        (CFAPI_BRIDGE_OK, s, [])) ∧
    (s.g_hasReportProgressFn = true →
      CfapiBridgeReportProgress s ck tk total completed osHr =
        (CFAPI_BRIDGE_OK, s,
          [OsCall.reportProviderProgress ck tk total completed])) := by
  have hb : (!s.g_init) = false := by simp [hs]
  by_cases hfn : s.g_hasReportProgressFn
  · have hb2 : (!s.g_hasReportProgressFn) = false := by simp [hfn]
    have he : CfapiBridgeReportProgress s ck tk total completed osHr =
        (CFAPI_BRIDGE_OK, s,
          [OsCall.reportProviderProgress ck tk total completed]) := by
      unfold CfapiBridgeReportProgress
      rw [if_neg (by simp [hb]), if_neg (by simp [hb2])]
      dsimp only
      split
      · rfl
      · rfl
    refine ⟨by rw [he], by rw [he], ?_, fun _ => he⟩
    intro hcontra
    rw [hfn] at hcontra
    exact absurd hcontra (by decide)
  · have hfn' : s.g_hasReportProgressFn = false := by
      simpa using hfn
    have he : CfapiBridgeReportProgress s ck tk total completed osHr =
        (CFAPI_BRIDGE_OK, s, []) := by
      unfold CfapiBridgeReportProgress
      rw [if_neg (by simp [hb]), if_pos (by simp [hfn'])]
    refine ⟨by rw [he], by rw [he], fun _ => he, ?_⟩
    intro hcontra
    rw [hfn'] at hcontra
    exact absurd hcontra (by decide)

/-- Witness for C7: concrete evaluations with a failing HRESULT
(0xFFFFFFFB, modelled as the negative value -5) and with the progress
function absent. -/
theorem reportProgress_best_effort_witness :
    (CfapiBridgeReportProgress initBridgeState 1 2 100 50 (-5)).1 =
      CFAPI_BRIDGE_OK ∧
    CfapiBridgeReportProgress initBridgeStateNoProgressFn 1 2 100 50 (-5) =
      (CFAPI_BRIDGE_OK, initBridgeStateNoProgressFn, []) :=
  ⟨(reportProgress_best_effort initBridgeState 1 2 100 50 (-5) rfl).1,
   (reportProgress_best_effort initBridgeStateNoProgressFn 1 2 100 50 (-5)
      rfl).2.2.1 rfl⟩

/-- C8 counterexample: calling `CfapiBridgeConnect` again after a
successful `Connect` is NOT a no-op.  Concretely: the first call on the
initialized bridge succeeds (key 7) and leaves the bridge state unchanged —
the bridge records nothing about the live registration — so the second call
runs on exactly the same state, issues another `CfConnectSyncRoot`
registration call to the OS (its trace is nonempty) and returns a second,
distinct key (8): a second live registration is created. -/
theorem connect_twice_not_noop :
    (CfapiBridgeConnect initBridgeState (some samplePath) true 0 7).1 =
      CFAPI_BRIDGE_OK ∧
    (CfapiBridgeConnect initBridgeState (some samplePath) true 0 7).2.1 =
      some 7 ∧
    (CfapiBridgeConnect initBridgeState (some samplePath) true 0 7).2.2.1 =
      initBridgeState ∧
    (CfapiBridgeConnect initBridgeState (some samplePath) true 0 8).2.2.2 =
      [OsCall.connectSyncRoot samplePath] ∧
    (CfapiBridgeConnect initBridgeState (some samplePath) true 0 8).2.2.2 ≠
      ([] : List OsCall) ∧
    (CfapiBridgeConnect initBridgeState (some samplePath) true 0 8).2.1 =
      some 8 :=
  ⟨rfl, rfl, rfl, rfl, by decide, rfl⟩

/-- C8 (amended): the bridge keeps no record of a live registration —
`CfapiBridgeConnect` on an initialized bridge with valid parameters ALWAYS
performs exactly one `CfConnectSyncRoot` OS registration call and leaves
the bridge state unchanged, returning the freshly produced key on success
and `API_FAILED` on a failing HRESULT; consequently a repeated `Connect`
creates a second live registration instead of being a no-op (any
single-registration guarantee must come from the caller). -/
theorem connect_always_registers (s : BridgeState) (p : List Nat)
    (osHr osKey : Int) (hs : s.g_init = true) :
    (CfapiBridgeConnect s (some p) true osHr osKey).2.2.2 =
      [OsCall.connectSyncRoot p] ∧
    (CfapiBridgeConnect s (some p) true osHr osKey).2.2.1 = s ∧
    (0 ≤ osHr → CfapiBridgeConnect s (some p) true osHr osKey =
      (CFAPI_BRIDGE_OK, some osKey, s, [OsCall.connectSyncRoot p])) ∧
    (osHr < 0 → CfapiBridgeConnect s (some p) true osHr osKey =
      (CFAPI_BRIDGE_ERROR_API_FAILED, none, s, [OsCall.connectSyncRoot p])) := by
  have hb : (!s.g_init) = false := by simp [hs]
  by_cases hhr : osHr < 0
  · have he : CfapiBridgeConnect s (some p) true osHr osKey =
        (CFAPI_BRIDGE_ERROR_API_FAILED, none, s, [OsCall.connectSyncRoot p]) := by
      unfold CfapiBridgeConnect
      rw [if_neg (by simp [hb])]
      dsimp only
      rw [if_neg (by decide), if_pos hhr]
    exact ⟨by rw [he], by rw [he], fun hle => absurd hhr (by omega),
      fun _ => he⟩
  · have he : CfapiBridgeConnect s (some p) true osHr osKey =
        (CFAPI_BRIDGE_OK, some osKey, s, [OsCall.connectSyncRoot p]) := by
      unfold CfapiBridgeConnect
      rw [if_neg (by simp [hb])]
      dsimp only
      rw [if_neg (by decide), if_neg hhr]
    exact ⟨by rw [he], by rw [he], fun _ => he, fun hlt => absurd hlt hhr⟩

/-- Witness for the amended C8: concrete evaluation of both outcome
branches. -/
theorem connect_always_registers_witness :
    CfapiBridgeConnect initBridgeState (some samplePath) true 0 9 =
      (CFAPI_BRIDGE_OK, some 9, initBridgeState, [OsCall.connectSyncRoot samplePath]) ∧
    CfapiBridgeConnect initBridgeState (some samplePath) true (-7) 9 =
      (CFAPI_BRIDGE_ERROR_API_FAILED, none, initBridgeState,
        [OsCall.connectSyncRoot samplePath]) :=
  ⟨(connect_always_registers initBridgeState samplePath 0 9 rfl).2.2.1
      (by decide),
   (connect_always_registers initBridgeState samplePath (-7) 9 rfl).2.2.2
      (by decide)⟩

lemma getD_replicate_zero (n i : Nat) (h : i < n) :
    (List.replicate n (0:Nat)).getD i 1 = 0 := by
  rw [List.getD_eq_getElem _ _ (by simpa using h)]
  exact List.getElem_replicate ..

lemma copyPath_eq (src : List Nat) :
    copyPath src = src.take (CFAPI_BRIDGE_MAX_PATH - 1) ++
      0 :: List.replicate
        ((CFAPI_BRIDGE_MAX_PATH - 1) - min src.length (CFAPI_BRIDGE_MAX_PATH - 1)) 0 := by
  unfold copyPath
  congr 1
  have hm := Nat.min_le_right src.length (CFAPI_BRIDGE_MAX_PATH - 1)
  have h : CFAPI_BRIDGE_MAX_PATH - min src.length (CFAPI_BRIDGE_MAX_PATH - 1) =
      ((CFAPI_BRIDGE_MAX_PATH - 1) - min src.length (CFAPI_BRIDGE_MAX_PATH - 1)) + 1 := by
    unfold CFAPI_BRIDGE_MAX_PATH at hm ⊢
    omega
  rw [h, List.replicate_succ]

lemma takeWhile_copyPath (src : List Nat) :
    (copyPath src).takeWhile (fun c => c != 0) =
      (src.take (CFAPI_BRIDGE_MAX_PATH - 1)).takeWhile (fun c => c != 0) := by
  rw [copyPath_eq, List.takeWhile_append]
  split
  · rename_i h
    rw [List.takeWhile_cons]
    rw [if_neg (by decide)]
    rw [List.append_nil]
    exact ((List.takeWhile_prefix _).eq_of_length h).symm
  · rfl

lemma stored_after_signal (s : BridgeState) (r : CfapiBridgeRequest)
    (hc : s.g_queue.queueCount < CFAPI_BRIDGE_MAX_QUEUE_SIZE) :
    (enqueueRequestSignal s r).2.1.g_queue.requestQueue s.g_queue.queueTail = r := by
  unfold enqueueRequestSignal enqueueRequest
  rw [if_neg (by omega : ¬ s.g_queue.queueCount ≥ CFAPI_BRIDGE_MAX_QUEUE_SIZE)]
  dsimp only
  rw [if_pos rfl]
  exact Function.update_same ..

/-- C9: every path stored into a queued callback event is a 520-slot buffer
whose last slot is zero (so it is always null-terminated), whose effective
content (the characters before the first zero) is at most 519 characters,
and which holds exactly the first 519 characters of an over-long OS path
(silent truncation, no overflow and no error).  The per-callback part: on
an initialized bridge with a non-full queue, the event stored by each of
the four enqueuing callbacks carries `copyPath` of the OS-supplied path
(or the all-zero buffer when the OS pointer is null) in its `filePath`,
and the rename callback additionally in its `targetPath`. -/
theorem callback_paths_truncated (src : List Nat) (s : BridgeState)
    (info : CF_CALLBACK_INFO) (fp : Option CF_CALLBACK_PARAMETERS_FETCHDATA)
    (rp : Option CF_CALLBACK_PARAMETERS_RENAME)
    (dp : Option CF_CALLBACK_PARAMETERS_DELETE) :
    (copyPath src).length = CFAPI_BRIDGE_MAX_PATH ∧
    (copyPath src).getD (CFAPI_BRIDGE_MAX_PATH - 1) 1 = 0 ∧
    ((copyPath src).takeWhile (fun c => c != 0)).length ≤ CFAPI_BRIDGE_MAX_PATH - 1 ∧
    ((∀ c ∈ src, c ≠ 0) →
      (copyPath src).takeWhile (fun c => c != 0) =
        src.take (CFAPI_BRIDGE_MAX_PATH - 1)) ∧
    zeroPath.getD (CFAPI_BRIDGE_MAX_PATH - 1) 1 = 0 ∧
    (s.g_init = true → s.g_queue.queueCount < CFAPI_BRIDGE_MAX_QUEUE_SIZE →
      ((OnFetchDataCallback s info fp).1.g_queue.requestQueue
          s.g_queue.queueTail).filePath =
        (match info.normalizedPath with
         | some p => copyPath p
         | none => zeroPath) ∧
      ((OnCancelFetchDataCallback s info).1.g_queue.requestQueue
          s.g_queue.queueTail).filePath =
        (match info.normalizedPath with
         | some p => copyPath p
         | none => zeroPath) ∧
      ((OnNotifyDeleteCallback s info dp).1.g_queue.requestQueue
          s.g_queue.queueTail).filePath =
        (match info.normalizedPath with
         | some p => copyPath p
         | none => zeroPath) ∧
      ((OnNotifyRenameCallback s info rp).1.g_queue.requestQueue
          s.g_queue.queueTail).filePath =
        (match info.normalizedPath with
         | some p => copyPath p
         | none => zeroPath) ∧
      ((OnNotifyRenameCallback s info rp).1.g_queue.requestQueue
          s.g_queue.queueTail).targetPath =
        (match rp with
         | some r0 =>
             (match r0.targetPath with
              | some t => copyPath t
              | none => zeroPath)
         | none => zeroPath)) := by
  refine ⟨?_, ?_, ?_, ?_, ?_, ?_⟩
  · unfold copyPath
    rw [List.length_append, List.length_take, List.length_replicate]
    unfold CFAPI_BRIDGE_MAX_PATH
    omega
  · unfold copyPath
    rw [List.getD_append_right _ _ _ _
      (by rw [List.length_take]; unfold CFAPI_BRIDGE_MAX_PATH; omega)]
    apply getD_replicate_zero
    rw [List.length_take]
    unfold CFAPI_BRIDGE_MAX_PATH
    omega
  · rw [takeWhile_copyPath]
    calc ((src.take (CFAPI_BRIDGE_MAX_PATH - 1)).takeWhile (fun c => c != 0)).length
        ≤ (src.take (CFAPI_BRIDGE_MAX_PATH - 1)).length :=
          (List.takeWhile_prefix _).length_le
      _ ≤ CFAPI_BRIDGE_MAX_PATH - 1 := by
          rw [List.length_take]; exact Nat.min_le_left ..
  · intro hnz
    rw [takeWhile_copyPath]
    apply List.takeWhile_eq_self_iff.mpr
    intro x hx
    simpa using hnz x (List.mem_of_mem_take hx)
  · exact getD_replicate_zero CFAPI_BRIDGE_MAX_PATH (CFAPI_BRIDGE_MAX_PATH - 1)
      (by decide)
  · intro hsinit hc
    refine ⟨?_, ?_, ?_, ?_, ?_⟩
    · unfold OnFetchDataCallback
      rw [if_neg (by simp [hsinit])]
      dsimp only
      rw [stored_after_signal s _ hc]
    · unfold OnCancelFetchDataCallback
      rw [if_neg (by simp [hsinit])]
      dsimp only
      rw [stored_after_signal s _ hc]
    · unfold OnNotifyDeleteCallback
      rw [if_neg (by simp [hsinit])]
      dsimp only
      rw [stored_after_signal s _ hc]
    · unfold OnNotifyRenameCallback
      rw [if_neg (by simp [hsinit])]
      dsimp only
      rw [stored_after_signal s _ hc]
    · unfold OnNotifyRenameCallback
      rw [if_neg (by simp [hsinit])]
      dsimp only
      rw [stored_after_signal s _ hc]

/-- Witness for C9: the 600-character path of `A`s is truncated to its
first 519 characters, and a concrete fetch-data callback on the fresh
initialized bridge stores `copyPath` of the supplied path into slot 0. -/
theorem callback_paths_truncated_witness :
    (copyPath longSrcPath).takeWhile (fun c => c != 0) =
      longSrcPath.take (CFAPI_BRIDGE_MAX_PATH - 1) ∧
    ((OnFetchDataCallback initBridgeState sampleInfo none).1.g_queue.requestQueue
        initBridgeState.g_queue.queueTail).filePath = copyPath [92, 102] :=
  ⟨(callback_paths_truncated longSrcPath initBridgeState sampleInfo none
      none none).2.2.2.1
      (fun c hcmem => by
        have h65 : c = 65 := by simpa [longSrcPath] using hcmem
        omega),
   ((callback_paths_truncated longSrcPath initBridgeState sampleInfo none
      none none).2.2.2.2.2 rfl (by decide)).1⟩

/-- C10: `CfapiBridgeTransferData` rejects a null buffer or a non-positive
buffer length with `INVALID_PARAM` before contacting the OS: on that path
the state is unchanged and the OS-call trace is empty; consequently every
`CfExecute` operation `TransferData` does submit has a strictly positive
length, a non-null buffer and success status — a zero-length transfer-data
completion can never be submitted through it. -/
theorem transferData_rejects_invalid_before_os (s : BridgeState)
    (ck tk : Int) (bp : Bool) (len off osHr : Int)
    (hs : s.g_init = true) (hbad : bp = false ∨ len ≤ 0) :
    CfapiBridgeTransferData s ck tk bp len off osHr =
      (CFAPI_BRIDGE_ERROR_INVALID_PARAM, s, []) ∧
    (∀ (s2 : BridgeState) (ck2 tk2 : Int) (bp2 : Bool) (len2 off2 osHr2 : Int)
        (op : CfOperation),
      OsCall.execute op ∈ (CfapiBridgeTransferData s2 ck2 tk2 bp2 len2 off2 osHr2).2.2 →
      0 < op.length ∧ op.hasBuffer = true ∧ op.completionStatus = S_OK) := by
  constructor
  · unfold CfapiBridgeTransferData
    rw [if_neg (by simp [hs])]
    rw [if_pos (by rcases hbad with h | h <;> simp [h])]
  · intro s2 ck2 tk2 bp2 len2 off2 osHr2 op hmem
    unfold CfapiBridgeTransferData at hmem
    split at hmem
    · simp at hmem
    · split at hmem
      · simp at hmem
      · rename_i hcond
        have hlen : 0 < len2 := by
          simp only [Bool.or_eq_true, Bool.not_eq_true', decide_eq_true_eq] at hcond
          push_neg at hcond
          omega
        dsimp only at hmem
        split at hmem <;>
        · simp only [List.mem_singleton, OsCall.execute.injEq] at hmem
          subst hmem
          exact ⟨hlen, rfl, rfl⟩

/-- Witness for C10: concrete rejection of a zero-length buffer on the
initialized bridge. -/
theorem transferData_rejects_invalid_before_os_witness :
    CfapiBridgeTransferData initBridgeState 1 2 true 0 5 0 =
      (CFAPI_BRIDGE_ERROR_INVALID_PARAM, initBridgeState, []) :=
  (transferData_rejects_invalid_before_os initBridgeState 1 2 true 0 5 0
    rfl (Or.inr (by decide))).1

end CfapiBridge
